import Mathlib

/-!
Verification development for the CarbonFlow AI engine.

The numeric core of the repository (ai-engine) is shallowly embedded over the
rationals: the CO2 ensemble predictor (feature extraction, confidence
intervals, feasibility scoring, seasonal monthly decomposition from
models/carbon_predictor.py), the vegetation analyzer (vegetation-index
coverage, CO2-sequestration potential, temporal trend fitting, batch
analysis from models/satellite_analyzer.py), and the verification
aggregator (main.py, verify_carbon_project).  Opaque ML components (the
random-forest point prediction, its per-tree standard deviation, and the
CNN class-probability output) are parameters of the embedded functions;
everything downstream of them is translated directly from the source.
Python float arithmetic is modelled as exact rational arithmetic.
-/

namespace CarbonFlow

/-- The fixed-order feature mapping built by `_extract_project_features`
(carbon_predictor.py). -/
structure Features where
  area_hectares : ℚ
  vegetation_coverage : ℚ
  temperature_avg : ℚ
  precipitation_mm : ℚ
  soil_quality_index : ℚ
  elevation_m : ℚ
  slope_degrees : ℚ
  biodiversity_index : ℚ
  human_activity_index : ℚ
  project_age_months : ℚ
  deriving DecidableEq

/-- A project descriptor, holding the fields the predictor reads
(main.py `ProjectData`; location and dates enter only through the
environmental lookup and the elapsed-days parameter). -/
structure ProjectData where
  project_id : String
  area_hectares : ℚ
  deriving DecidableEq

/-- Environmental lookup result (`_get_environmental_data`); each field is
optional, read with the defaults hard-coded in `_extract_project_features`. -/
structure EnvironmentalData where
  temperature : Option ℚ
  precipitation : Option ℚ
  soil_quality : Option ℚ
  elevation : Option ℚ
  slope : Option ℚ
  biodiversity : Option ℚ
  human_activity : Option ℚ
  deriving DecidableEq

/-- `_extract_project_features` (carbon_predictor.py lines 189-214):
vegetation_coverage is the hard-coded constant 75.0, the environmental
fields fall back to fixed defaults, and the project age is elapsed days
divided by 30.44. -/
def extract_project_features (project : ProjectData) (env : EnvironmentalData)
    (elapsed_days : ℚ) : Features :=
  { area_hectares := project.area_hectares
    vegetation_coverage := 75
    temperature_avg := env.temperature.getD 20
    precipitation_mm := env.precipitation.getD 800
    soil_quality_index := env.soil_quality.getD (7/10)
    elevation_m := env.elevation.getD 500
    slope_degrees := env.slope.getD 10
    biodiversity_index := env.biodiversity.getD (6/10)
    human_activity_index := env.human_activity.getD (3/10)
    project_age_months := elapsed_days / (3044/100) }

/-- The five feasibility sub-factors of `_calculate_feasibility`, in source
order: vegetation coverage, soil quality, precipitation, area size,
prediction reasonableness. -/
def feasibility_factors (features : Features) (prediction : ℚ) : List ℚ :=
  [min (features.vegetation_coverage / 80) 1,
   features.soil_quality_index,
   min (features.precipitation_mm / 1000) 1,
   min (features.area_hectares / 100) 1,
   min (prediction / (features.area_hectares * 5)) 1]

/-- The weights `[0.25, 0.20, 0.20, 0.15, 0.20]` of `_calculate_feasibility`. -/
def feasibility_weights : List ℚ := [25/100, 20/100, 20/100, 15/100, 20/100]

/-- `numpy.average(values, weights=weights)`: the weighted sum divided by the
total weight. -/
def np_average (values weights : List ℚ) : ℚ :=
  (List.zipWith (fun v w => v * w) values weights).sum / weights.sum

/-- `_calculate_feasibility` (carbon_predictor.py lines 248-264): the weighted
average of the five sub-factors, clamped above at 1 by `min(feasibility, 1.0)`.
Note the source applies no lower clamp. -/
def calculate_feasibility (features : Features) (prediction : ℚ) : ℚ :=
  min (np_average (feasibility_factors features prediction) feasibility_weights) 1

/-- `_generate_recommendation` (carbon_predictor.py lines 280-291). -/
def generate_recommendation (prediction feasibility : ℚ) : String :=
  if feasibility > 8/10 ∧ prediction > 100 then
    "Excellent project with high CO2 capture potential. Highly recommended for investment."
  else if feasibility > 6/10 ∧ prediction > 50 then
    "Good project with moderate CO2 capture potential. Recommended for investment with monitoring."
  else if feasibility > 4/10 ∧ prediction > 20 then
    "Average project with limited CO2 capture potential. Consider additional improvements."
  else
    "Poor project feasibility. Not recommended for carbon credit investment."

/-- The 95 percent confidence interval of `estimate_co2_capture`. -/
structure ConfidenceInterval where
  lower : ℚ
  upper : ℚ
  deriving DecidableEq

/-- The result record of `estimate_co2_capture` (its numeric and textual
fields; the timestamp and the model-internal feature-importance ranking are
not modelled). -/
structure CO2Estimate where
  annual_co2_tonnes : ℚ
  confidence_interval : ConfidenceInterval
  feasibility : ℚ
  recommendation : String
  deriving DecidableEq

/-- The fallback branch of `_estimate_prediction_uncertainty`
(carbon_predictor.py line 246): ten percent of the prediction magnitude. -/
def fallback_uncertainty (prediction : ℚ) : ℚ := 1/10 * |prediction|

/-- `estimate_co2_capture` (carbon_predictor.py lines 145-183).  The model
point prediction and its uncertainty (per-tree standard deviation or the
fallback) are parameters; the unloaded-model guard, the floor of the point
estimate at 0, the `prediction ± 1.96·σ` interval with the lower bound
floored at 0, the feasibility score and the recommendation are translated
from the source. -/
def estimate_co2_capture (is_model_loaded : Bool) (features : Features)
    (prediction prediction_std : ℚ) : Except String CO2Estimate :=
  if is_model_loaded = false then Except.error "Carbon predictor model not loaded"
  else
    Except.ok
      { annual_co2_tonnes := max prediction 0
        confidence_interval :=
          { lower := max (prediction - 196/100 * prediction_std) 0
            upper := prediction + 196/100 * prediction_std }
        feasibility := calculate_feasibility features prediction
        recommendation :=
          generate_recommendation prediction (calculate_feasibility features prediction) }

/-- Features with everything zeroed except a 1-hectare area: together with a
negative raw prediction they drive the feasibility weighted average negative. -/
def negative_feasibility_features : Features :=
  { area_hectares := 1
    vegetation_coverage := 0
    temperature_avg := 20
    precipitation_mm := 0
    soil_quality_index := 0
    elevation_m := 500
    slope_degrees := 10
    biodiversity_index := 6/10
    human_activity_index := 3/10
    project_age_months := 12 }

/-- Representative in-range features used to instantiate proved theorems. -/
def typical_features : Features :=
  { area_hectares := 100
    vegetation_coverage := 75
    temperature_avg := 20
    precipitation_mm := 800
    soil_quality_index := 7/10
    elevation_m := 500
    slope_degrees := 10
    biodiversity_index := 6/10
    human_activity_index := 3/10
    project_age_months := 12 }

/-- An image pixel; only the red and green channels enter the vegetation
index, blue is carried for fidelity to the 3-channel tensors. -/
structure Pixel where
  red : ℚ
  green : ℚ
  blue : ℚ
  deriving DecidableEq

/-- A raw image tensor, modelled as its list of pixels. -/
abbrev Image := List Pixel

/-- The per-pixel simulated NDVI of `_calculate_vegetation_coverage`
(satellite_analyzer.py lines 236-239): `(green - red) / (green + red + 1e-8)`. -/
def ndvi_value (p : Pixel) : ℚ :=
  (p.green - p.red) / (p.green + p.red + 1/100000000)

/-- `_calculate_vegetation_coverage` (satellite_analyzer.py lines 220-251):
the fraction of pixels whose index exceeds 0.2, as a percentage capped at
100.  An empty image yields 0 (rational division by zero is 0, matching the
source's exception fallback value 0.0). -/
def calculate_vegetation_coverage (image_data : Image) : ℚ :=
  let vegetation_pixels := (image_data.filter (fun p => decide (ndvi_value p > 2/10))).length
  let total_pixels := image_data.length
  min ((vegetation_pixels : ℚ) / (total_pixels : ℚ) * 100) 100

/-- The seven vegetation classes of the CNN (satellite_analyzer.py
lines 23-31). -/
inductive VegClass where
  | no_vegetation
  | sparse_vegetation
  | moderate_vegetation
  | dense_vegetation
  | forest
  | deforestation
  | reforestation
  deriving DecidableEq

/-- `self.vegetation_classes`, in source order. -/
def vegetation_classes : List VegClass :=
  [VegClass.no_vegetation, VegClass.sparse_vegetation, VegClass.moderate_vegetation,
   VegClass.dense_vegetation, VegClass.forest, VegClass.deforestation,
   VegClass.reforestation]

/-- `np.argmax` over the class-probability vector: the first class whose
probability is maximal (a later class replaces the running best only when
strictly larger). -/
def argmax_class (probs : VegClass → ℚ) : VegClass :=
  vegetation_classes.foldl (fun best c => if probs c > probs best then c else best)
    VegClass.no_vegetation

/-- The result record of `analyze_single_image` (its fields used downstream;
the change-detection stub and timestamp are not modelled). -/
structure ClassificationResult where
  vegetation_detected : Bool
  predicted_class : VegClass
  confidence : ℚ
  vegetation_coverage_percent : ℚ
  class_probabilities : VegClass → ℚ

/-- `analyze_single_image` (satellite_analyzer.py lines 127-169).  The CNN
forward pass (preprocessing plus `model.predict`) is the `classify`
parameter, which may fail on a malformed image; the unloaded-model guard,
the 0.7 detection threshold on the max-class probability, and the
independent coverage computation are translated from the source. -/
def analyze_single_image (is_model_loaded : Bool)
    (classify : Image → Except String (VegClass → ℚ)) (image_data : Image) :
    Except String ClassificationResult :=
  if is_model_loaded = false then Except.error "CNN model not loaded"
  else
    match classify image_data with
    | Except.error e => Except.error e
    | Except.ok probs =>
      Except.ok
        { vegetation_detected := decide (probs (argmax_class probs) > 7/10)
          predicted_class := argmax_class probs
          confidence := probs (argmax_class probs)
          vegetation_coverage_percent := calculate_vegetation_coverage image_data
          class_probabilities := probs }

/-- One entry of the `batch_analyze` result list: either a successful
classification or the error record `{error, vegetation_detected: False,
confidence: 0.0}` appended by the per-image exception handler. -/
inductive BatchEntry where
  | success (result : ClassificationResult)
  | failure (error : String) (vegetation_detected : Bool) (confidence : ℚ)

/-- `batch_analyze` (satellite_analyzer.py lines 331-354): each image is
analyzed independently; a failing image contributes an error-tagged entry
with `vegetation_detected=False` and `confidence=0.0` instead of aborting
the batch. -/
def batch_analyze (is_model_loaded : Bool)
    (classify : Image → Except String (VegClass → ℚ)) (images : List Image) :
    Except String (List BatchEntry) :=
  if is_model_loaded = false then Except.error "CNN model not loaded"
  else
    Except.ok (images.map (fun image =>
      match analyze_single_image is_model_loaded classify image with
      | Except.ok r => BatchEntry.success r
      | Except.error e => BatchEntry.failure e false 0))

/-- The CO2 conversion table of `_calculate_co2_potential`
(satellite_analyzer.py lines 292-300), tonnes per hectare per year. -/
def conversion_factors : VegClass → ℚ
  | VegClass.forest => 10
  | VegClass.dense_vegetation => 6
  | VegClass.moderate_vegetation => 3
  | VegClass.sparse_vegetation => 1
  | VegClass.no_vegetation => 0
  | VegClass.reforestation => 8
  | VegClass.deforestation => -5

/-- The accumulator `total_co2_potential` of `_calculate_co2_potential`:
the sum over images and classes of conversion factor times probability. -/
def total_co2_potential (analysis_results : List (VegClass → ℚ)) : ℚ :=
  (analysis_results.map
    (fun probs => (vegetation_classes.map (fun c => conversion_factors c * probs c)).sum)).sum

/-- The accumulator `total_confidence` of `_calculate_co2_potential`:
the total probability mass over images and classes. -/
def total_confidence (analysis_results : List (VegClass → ℚ)) : ℚ :=
  (analysis_results.map (fun probs => (vegetation_classes.map probs).sum)).sum

/-- `_calculate_co2_potential` (satellite_analyzer.py lines 282-323): the
accumulated factor-weighted probability mass is normalized by the total
probability mass (0 when that mass is not positive), scaled by area and by
the coverage fraction, and floored at 0. -/
def calculate_co2_potential (area_hectares vegetation_coverage : ℚ)
    (analysis_results : List (VegClass → ℚ)) : ℚ :=
  let weighted_co2_factor :=
    if total_confidence analysis_results > 0 then
      total_co2_potential analysis_results / total_confidence analysis_results
    else 0
  let vegetation_factor := vegetation_coverage / 100
  max (area_hectares * weighted_co2_factor * vegetation_factor) 0

/-- A probability distribution putting all mass on the forest class. -/
def forest_probabilities : VegClass → ℚ
  | VegClass.forest => 1
  | VegClass.no_vegetation => 0
  | VegClass.sparse_vegetation => 0
  | VegClass.moderate_vegetation => 0
  | VegClass.dense_vegetation => 0
  | VegClass.deforestation => 0
  | VegClass.reforestation => 0

/-- One sample of a classified time series: its coverage percentage and its
date expressed in days (the source converts dates to elapsed days before
fitting). -/
structure TemporalPoint where
  vegetation_coverage_percent : ℚ
  date_days : ℚ
  deriving DecidableEq

/-- The trend record of `_calculate_vegetation_trend`; the insufficient-data
result carries only the tag and the zero change rate, so the remaining
fields are optional. -/
structure TrendResult where
  trend : String
  change_rate : ℚ
  initial_coverage : Option ℚ
  final_coverage : Option ℚ
  total_change : Option ℚ
  deriving DecidableEq

/-- The slope of `np.polyfit(x, y, 1)`: the degree-1 least-squares
coefficient in closed form, `(n·Σxy − Σx·Σy) / (n·Σx² − (Σx)²)`. -/
def polyfit_slope (x_values coverages : List ℚ) : ℚ :=
  let n : ℚ := x_values.length
  let sx := x_values.sum
  let sy := coverages.sum
  let sxy := (List.zipWith (fun a b => a * b) x_values coverages).sum
  let sxx := (x_values.map (fun a => a * a)).sum
  (n * sxy - sx * sy) / (n * sxx - sx * sx)

/-- The slope classification of `_calculate_vegetation_trend`
(satellite_analyzer.py lines 432-437). -/
def classify_trend_slope (trend_slope : ℚ) : String :=
  if trend_slope > 1 then "increasing"
  else if trend_slope < -1 then "decreasing"
  else "stable"

/-- `_calculate_vegetation_trend` (satellite_analyzer.py lines 415-445):
fewer than two samples yield the explicit insufficient-data record; otherwise
coverage is regressed against days elapsed since the first sample and the
slope is classified. -/
def calculate_vegetation_trend (temporal_results : List TemporalPoint) : TrendResult :=
  match temporal_results with
  | [] => ⟨"insufficient_data", 0, none, none, none⟩
  | [_] => ⟨"insufficient_data", 0, none, none, none⟩
  | p0 :: p1 :: rest =>
    let pts := p0 :: p1 :: rest
    let coverages := pts.map (fun r => r.vegetation_coverage_percent)
    let x_values := pts.map (fun r => r.date_days - p0.date_days)
    let trend_slope := polyfit_slope x_values coverages
    ⟨classify_trend_slope trend_slope, trend_slope,
     some (coverages.headD 0), some (coverages.getLastD 0),
     some (coverages.getLastD 0 - coverages.headD 0)⟩

/-- The fields of the satellite area analysis consumed by the aggregator
(`analyze_project_area` output). -/
structure SatelliteResult where
  vegetation_detected : Bool
  confidence : ℚ
  vegetation_coverage_percent : ℚ
  co2_sequestration_potential_tonnes_year : ℚ
  deriving DecidableEq

/-- The external legitimacy scorer's output consumed by the aggregator. -/
structure FraudResult where
  legitimacy_score : ℚ
  deriving DecidableEq

/-- The combined verification record built by `verify_carbon_project`
(its numeric and boolean fields; the nested raw sub-results and timestamp
are carried by reference in the source and not modelled). -/
structure VerificationResult where
  project_id : String
  verification_status : Bool
  confidence_score : ℚ
  co2_capture_estimate : ℚ
  fraud_risk_score : ℚ
  deriving DecidableEq

/-- The result-combination step of `verify_carbon_project` (main.py
lines 113-134), applied once all three fanned-out analyses have completed:
`verification_status = vegetation_detected and legitimacy_score > 0.8 and
feasibility > 0.7`, `confidence_score = min of the three signals`,
`fraud_risk_score = 1 - legitimacy_score`. -/
def verify_carbon_project (project_id : String) (satellite_result : SatelliteResult)
    (fraud_result : FraudResult) (carbon_result : CO2Estimate) : VerificationResult :=
  { project_id := project_id
    verification_status :=
      satellite_result.vegetation_detected &&
      decide (fraud_result.legitimacy_score > 8/10) &&
      decide (carbon_result.feasibility > 7/10)
    confidence_score :=
      min (min satellite_result.confidence fraud_result.legitimacy_score)
        carbon_result.feasibility
    co2_capture_estimate := carbon_result.annual_co2_tonnes
    fraud_risk_score := 1 - fraud_result.legitimacy_score }

/-- The satellite sub-result of the spec's end-to-end example
(vegetation detected with confidence 0.85). -/
def example_satellite : SatelliteResult :=
  { vegetation_detected := true
    confidence := 17/20
    vegetation_coverage_percent := 85
    co2_sequestration_potential_tonnes_year := 100 }

/-- The legitimacy sub-result of the spec's end-to-end example (0.9). -/
def example_fraud : FraudResult := { legitimacy_score := 9/10 }

/-- The carbon sub-result of the spec's end-to-end example
(feasibility 0.75). -/
def example_carbon : CO2Estimate :=
  { annual_co2_tonnes := 120
    confidence_interval := { lower := 100, upper := 140 }
    feasibility := 3/4
    recommendation := generate_recommendation 120 (3/4) }

/-- The fixed 12-element seasonal-factor table of
`_calculate_monthly_breakdown` (carbon_predictor.py line 357). -/
def seasonal_factors : List ℚ :=
  [6/10, 7/10, 9/10, 12/10, 14/10, 13/10, 12/10, 11/10, 10/10, 8/10, 6/10, 5/10]

/-- One record of the monthly breakdown list. -/
structure MonthRecord where
  month : ℕ
  co2_capture_tonnes : ℚ
  seasonal_factor : ℚ
  cumulative_co2 : ℚ
  deriving DecidableEq

/-- One iteration of the loop in `_calculate_monthly_breakdown`: month
`month` (0-based) contributes `annual/12` times the seasonal factor at index
`month mod 12`, and its cumulative total is the sum of the monthly tonnes
appended so far plus its own. -/
def monthly_step (annual_co2 : ℚ) (monthly_data : List MonthRecord) (month : ℕ) :
    List MonthRecord :=
  let seasonal_factor := seasonal_factors.getD (month % 12) 0
  let monthly_co2 := annual_co2 / 12 * seasonal_factor
  monthly_data ++
    [⟨month + 1, monthly_co2, seasonal_factor,
      (monthly_data.map MonthRecord.co2_capture_tonnes).sum + monthly_co2⟩]

/-- The loop of `_calculate_monthly_breakdown` run for a given number of
months. -/
def breakdown_months (annual_co2 : ℚ) (months : ℕ) : List MonthRecord :=
  (List.range months).foldl (monthly_step annual_co2) []

/-- `_calculate_monthly_breakdown` (carbon_predictor.py lines 344-370):
`months = min(timeframe_days // 30, 12)` records. -/
def calculate_monthly_breakdown (annual_co2 : ℚ) (timeframe_days : ℕ) :
    List MonthRecord :=
  breakdown_months annual_co2 (min (timeframe_days / 30) 12)

/-- The seasonal factor used for 0-based month `m`. -/
def month_factor (m : ℕ) : ℚ := seasonal_factors.getD (m % 12) 0

/-- The sum of the seasonal factors of the first `n` months. -/
def factor_prefix_sum (n : ℕ) : ℚ := ((List.range n).map month_factor).sum

/-- The coverage sequence 40, 45, 50, 55 sampled at the repository's own
30-day interval (`_fetch_time_series_images` advances by 30 days). -/
def thirty_day_series : List TemporalPoint :=
  [⟨40, 0⟩, ⟨45, 30⟩, ⟨50, 60⟩, ⟨55, 90⟩]

/-- The coverage sequence 40, 45, 50, 55 sampled on consecutive days. -/
def one_day_series : List TemporalPoint :=
  [⟨40, 0⟩, ⟨45, 1⟩, ⟨50, 2⟩, ⟨55, 3⟩]

/-- The constant coverage sequence 50, 50, 50 at 30-day spacing. -/
def constant_series : List TemporalPoint :=
  [⟨50, 0⟩, ⟨50, 30⟩, ⟨50, 60⟩]

/-- A concrete well-formed pixel for witness images. -/
def demo_pixel : Pixel := ⟨10, 50, 20⟩

/-- A concrete classifier used to instantiate proved theorems: it rejects an
empty image tensor and classifies any other image as pure forest. -/
def demo_classify : Image → Except String (VegClass → ℚ) :=
  fun image =>
    if image.length = 0 then Except.error "Empty image tensor"
    else Except.ok forest_probabilities

/-- A concrete batch in which exactly the second image is malformed. -/
def demo_images : List Image := [[demo_pixel], []]

theorem breakdown_months_succ (a : ℚ) (n : ℕ) :
    breakdown_months a (n + 1) = monthly_step a (breakdown_months a n) n := by
  simp [breakdown_months, List.range_succ]

theorem breakdown_months_length (a : ℚ) (n : ℕ) :
    (breakdown_months a n).length = n := by
  induction n with
  | zero => rfl
  | succ n ih => simp [breakdown_months_succ, monthly_step, ih]

theorem factor_prefix_sum_succ (n : ℕ) :
    factor_prefix_sum (n + 1) = factor_prefix_sum n + month_factor n := by
  rw [factor_prefix_sum, List.range_succ, List.map_append, List.sum_append]
  simp [factor_prefix_sum]

theorem breakdown_months_sum (a : ℚ) (n : ℕ) :
    ((breakdown_months a n).map MonthRecord.co2_capture_tonnes).sum =
      a / 12 * factor_prefix_sum n := by
  induction n with
  | zero => simp [breakdown_months, factor_prefix_sum]
  | succ n ih =>
    rw [breakdown_months_succ, monthly_step]
    simp only [List.map_append, List.sum_append, List.map_cons, List.map_nil,
      List.sum_cons, List.sum_nil, add_zero]
    rw [ih, factor_prefix_sum_succ, month_factor]
    ring

theorem breakdown_months_getElem (a : ℚ) {i n : ℕ} (h : i < n) :
    (breakdown_months a n)[i]? =
      some ⟨i + 1, a / 12 * month_factor i, month_factor i,
        a / 12 * factor_prefix_sum (i + 1)⟩ := by
  induction n with
  | zero => exact absurd h (Nat.not_lt_zero i)
  | succ n ih =>
    rw [breakdown_months_succ, monthly_step]
    rcases Nat.lt_or_ge i n with hi | hi
    · rw [List.getElem?_append_left (by rw [breakdown_months_length]; exact hi)]
      exact ih hi
    · have hin : i = n := Nat.le_antisymm (Nat.lt_succ_iff.mp h) hi
      subst hin
      rw [List.getElem?_append_right (by rw [breakdown_months_length])]
      rw [breakdown_months_length, Nat.sub_self]
      have hsum := breakdown_months_sum a i
      simp only [List.getElem?_cons_zero, Option.some.injEq, MonthRecord.mk.injEq,
        month_factor]
      refine ⟨trivial, trivial, trivial, ?_⟩
      rw [hsum, factor_prefix_sum_succ, month_factor]
      ring

theorem breakdown_months_take (a : ℚ) {m n : ℕ} (h : m ≤ n) :
    (breakdown_months a n).take m = breakdown_months a m := by
  induction n with
  | zero =>
    have : m = 0 := Nat.le_zero.mp h
    subst this; rfl
  | succ n ih =>
    rcases Nat.lt_or_ge m (n + 1) with hm | hm
    · have hm' : m ≤ n := Nat.lt_succ_iff.mp hm
      rw [breakdown_months_succ, monthly_step,
        List.take_append_of_le_length (by rw [breakdown_months_length]; exact hm')]
      exact ih hm'
    · have hm' : m = n + 1 := Nat.le_antisymm h hm
      subst hm'
      exact List.take_of_length_le (by rw [breakdown_months_length])

/-- Claim C1: whenever all three fanned-out analyses complete, the aggregator
sets `verification_status` to true exactly when vegetation is detected, the
legitimacy score exceeds 0.8 and the feasibility exceeds 0.7; the confidence
score is the minimum of vegetation confidence, legitimacy and feasibility;
the fraud risk is one minus the legitimacy score; and on the end-to-end
inputs legitimacy 0.9, feasibility 0.75, vegetation detected with confidence
0.85 it yields status true, confidence 0.75 and fraud risk 0.1. -/
theorem c1_aggregator_combination (pid : String) (sat : SatelliteResult)
    (fraud : FraudResult) (carbon : CO2Estimate) :
    ((verify_carbon_project pid sat fraud carbon).verification_status = true ↔
      (sat.vegetation_detected = true ∧ 8/10 < fraud.legitimacy_score ∧
        7/10 < carbon.feasibility)) ∧
    (verify_carbon_project pid sat fraud carbon).confidence_score =
      min (min sat.confidence fraud.legitimacy_score) carbon.feasibility ∧
    (verify_carbon_project pid sat fraud carbon).fraud_risk_score =
      1 - fraud.legitimacy_score ∧
    (verify_carbon_project "project-001" example_satellite example_fraud
      example_carbon).verification_status = true ∧
    (verify_carbon_project "project-001" example_satellite example_fraud
      example_carbon).confidence_score = 3/4 ∧
    (verify_carbon_project "project-001" example_satellite example_fraud
      example_carbon).fraud_risk_score = 1/10 := by
  refine ⟨?_, rfl, rfl, ?_, ?_, ?_⟩
  · simp [verify_carbon_project, Bool.and_eq_true, decide_eq_true_iff, and_assoc]
  · simp only [verify_carbon_project, example_satellite, example_fraud, example_carbon,
      Bool.and_eq_true, decide_eq_true_iff]
    norm_num
  · simp only [verify_carbon_project, example_satellite, example_fraud, example_carbon]
    norm_num
  · simp only [verify_carbon_project, example_fraud]
    norm_num

/-- Claim C9: with the loaded flag false, both the carbon predictor and the
vegetation classifier reject inference with their model-not-loaded errors
instead of returning any default result. -/
theorem c9_unloaded_model_rejects (f : Features) (p s : ℚ)
    (classify : Image → Except String (VegClass → ℚ)) (img : Image) :
    estimate_co2_capture false f p s =
      Except.error "Carbon predictor model not loaded" ∧
    analyze_single_image false classify img =
      Except.error "CNN model not loaded" :=
  ⟨rfl, rfl⟩

/-- Claim C10: feature extraction fixes the vegetation-coverage feature at the
constant 75 for every project descriptor and environmental lookup, so the
vegetation sub-factor of every feasibility computed from extracted features is
min(75/80, 1) = 15/16 = 0.9375. -/
theorem c10_constant_vegetation_coverage (project : ProjectData)
    (env : EnvironmentalData) (elapsed_days prediction : ℚ) :
    (extract_project_features project env elapsed_days).vegetation_coverage = 75 ∧
    (feasibility_factors (extract_project_features project env elapsed_days)
      prediction).headD 0 = 15/16 := by
  refine ⟨rfl, ?_⟩
  simp only [feasibility_factors, extract_project_features, List.headD_cons]
  rw [min_eq_left (by norm_num)]
  norm_num

/-- Claim C6: for every input image tensor, the vegetation coverage percentage
computed from the per-pixel index lies in the interval from 0 to 100. -/
theorem c6_coverage_in_range (image_data : Image) :
    0 ≤ calculate_vegetation_coverage image_data ∧
    calculate_vegetation_coverage image_data ≤ 100 := by
  unfold calculate_vegetation_coverage
  refine ⟨le_min ?_ (by norm_num), min_le_right _ _⟩
  have h1 : (0:ℚ) ≤ ((List.filter (fun p => decide (ndvi_value p > 2/10)) image_data).length : ℚ) :=
    Nat.cast_nonneg _
  have h2 : (0:ℚ) ≤ (image_data.length : ℚ) := Nat.cast_nonneg _
  have := div_nonneg h1 h2
  nlinarith

/-- Claim C2 is refuted at a concrete input: with zeroed soil, coverage and
precipitation over a 1-hectare area, a raw prediction of -100 drives the
feasibility score to -7997/2000, outside the interval from 0 to 1, because
the source clamps only from above. -/
theorem c2_counterexample :
    calculate_feasibility negative_feasibility_features (-100) < 0 := by
  norm_num [calculate_feasibility, np_average, feasibility_factors,
    feasibility_weights, negative_feasibility_features, List.zipWith]

/-- Claim C2 (amended): the feasibility score equals the weighted average of
the five sub-factors clamped above at 1, hence never exceeds 1, and it lies
in the interval from 0 to 1 whenever the vegetation coverage, soil quality,
precipitation, area and point prediction are all nonnegative; for negative
inputs it can drop below 0 since the source applies no lower clamp. -/
theorem c2_feasibility_weighted_average (f : Features) (p : ℚ)
    (hvc : 0 ≤ f.vegetation_coverage) (hsoil : 0 ≤ f.soil_quality_index)
    (hprec : 0 ≤ f.precipitation_mm) (harea : 0 ≤ f.area_hectares) (hp : 0 ≤ p) :
    calculate_feasibility f p =
      min (min (f.vegetation_coverage / 80) 1 * (25/100) +
           f.soil_quality_index * (20/100) +
           min (f.precipitation_mm / 1000) 1 * (20/100) +
           min (f.area_hectares / 100) 1 * (15/100) +
           min (p / (f.area_hectares * 5)) 1 * (20/100)) 1 ∧
    0 ≤ calculate_feasibility f p ∧ calculate_feasibility f p ≤ 1 := by
  have heq : calculate_feasibility f p =
      min (min (f.vegetation_coverage / 80) 1 * (25/100) +
           f.soil_quality_index * (20/100) +
           min (f.precipitation_mm / 1000) 1 * (20/100) +
           min (f.area_hectares / 100) 1 * (15/100) +
           min (p / (f.area_hectares * 5)) 1 * (20/100)) 1 := by
    unfold calculate_feasibility np_average feasibility_factors feasibility_weights
    norm_num [List.zipWith]
    ring_nf
  refine ⟨heq, ?_, min_le_right _ _⟩
  rw [heq]
  have h1 : 0 ≤ min (f.vegetation_coverage / 80) 1 :=
    le_min (by positivity) zero_le_one
  have h3 : 0 ≤ min (f.precipitation_mm / 1000) 1 :=
    le_min (by positivity) zero_le_one
  have h4 : 0 ≤ min (f.area_hectares / 100) 1 :=
    le_min (by positivity) zero_le_one
  have h5 : 0 ≤ min (p / (f.area_hectares * 5)) 1 :=
    le_min (div_nonneg hp (by positivity)) zero_le_one
  apply le_min _ zero_le_one
  have w1 : 0 ≤ min (f.vegetation_coverage / 80) 1 * (25/100) := by positivity
  have w2 : 0 ≤ f.soil_quality_index * (20/100) := by positivity
  have w3 : 0 ≤ min (f.precipitation_mm / 1000) 1 * (20/100) := by positivity
  have w4 : 0 ≤ min (f.area_hectares / 100) 1 * (15/100) := by positivity
  have w5 : 0 ≤ min (p / (f.area_hectares * 5)) 1 * (20/100) := by positivity
  linarith

/-- Witness for the amended claim C2 at representative in-range inputs. -/
theorem c2_witness :
    0 ≤ calculate_feasibility typical_features 50 ∧
    calculate_feasibility typical_features 50 ≤ 1 :=
  ⟨(c2_feasibility_weighted_average typical_features 50 (by norm_num [typical_features])
      (by norm_num [typical_features]) (by norm_num [typical_features])
      (by norm_num [typical_features]) (by norm_num)).2.1,
   (c2_feasibility_weighted_average typical_features 50 (by norm_num [typical_features])
      (by norm_num [typical_features]) (by norm_num [typical_features])
      (by norm_num [typical_features]) (by norm_num)).2.2⟩

/-- Claim C4 is refuted at a concrete input: for the raw prediction -100 with
the fallback uncertainty 0.1·|-100| = 10, the interval's upper bound is
-100 + 1.96·10 = -80.4, strictly below the returned point estimate
max(-100, 0) = 0. -/
theorem c4_counterexample :
    ∃ e, estimate_co2_capture true negative_feasibility_features (-100)
        (fallback_uncertainty (-100)) = Except.ok e ∧
      e.confidence_interval.upper < e.annual_co2_tonnes := by
  refine ⟨_, rfl, ?_⟩
  show (-100 : ℚ) + 196/100 * fallback_uncertainty (-100) < max (-100) 0
  norm_num [fallback_uncertainty]

/-- Claim C4 (amended): every successful CO2 estimate has confidence-interval
lower bound max(prediction - 1.96·σ, 0), which is always at least 0, and
upper bound prediction + 1.96·σ, which is at least the returned point
estimate max(prediction, 0) whenever the raw prediction is nonnegative
(σ being nonnegative); for a negative raw prediction the upper bound can
fall below the floored point estimate. -/
theorem c4_confidence_interval (loaded : Bool) (f : Features) (p s : ℚ)
    (hs : 0 ≤ s) (e : CO2Estimate)
    (he : estimate_co2_capture loaded f p s = Except.ok e) :
    e.confidence_interval.lower = max (p - 196/100 * s) 0 ∧
    0 ≤ e.confidence_interval.lower ∧
    e.confidence_interval.upper = p + 196/100 * s ∧
    (0 ≤ p → e.annual_co2_tonnes ≤ e.confidence_interval.upper) := by
  cases loaded with
  | false => simp [estimate_co2_capture] at he
  | true =>
    simp only [estimate_co2_capture, Bool.true_eq_false, if_false,
      Except.ok.injEq] at he
    subst he
    refine ⟨rfl, le_max_right _ _, rfl, fun hp => ?_⟩
    show max p 0 ≤ p + 196/100 * s
    rw [max_eq_left hp]
    have : 0 ≤ 196/100 * s := by positivity
    linarith

/-- Witness for the amended claim C4 at a loaded model with prediction 100 and
uncertainty 10. -/
theorem c4_witness :
    ∃ e, estimate_co2_capture true typical_features 100 10 = Except.ok e ∧
      0 ≤ e.confidence_interval.lower ∧
      e.annual_co2_tonnes ≤ e.confidence_interval.upper := by
  refine ⟨_, rfl, ?_, ?_⟩
  · exact (c4_confidence_interval true typical_features 100 10 (by norm_num)
      _ rfl).2.1
  · exact (c4_confidence_interval true typical_features 100 10 (by norm_num)
      _ rfl).2.2.2 (by norm_num)

/-- Claim C5: whenever the accumulated probability mass is positive, the
CO2-sequestration potential is the area times the coverage fraction times the
probability-weighted conversion factor (deforestation contributing its
negative factor before the floor at 0), and one image classified entirely as
forest over a fully covered 10-hectare area yields exactly 100 tonnes per
year. -/
theorem c5_co2_potential (area coverage : ℚ) (results : List (VegClass → ℚ))
    (h : 0 < total_confidence results) :
    calculate_co2_potential area coverage results =
      max (area * (coverage / 100) *
        (total_co2_potential results / total_confidence results)) 0 ∧
    calculate_co2_potential 10 100 [forest_probabilities] = 100 := by
  constructor
  · simp only [calculate_co2_potential]
    rw [if_pos h]
    congr 1
    ring
  · simp only [calculate_co2_potential, total_co2_potential, total_confidence,
      vegetation_classes, forest_probabilities, conversion_factors,
      List.map_cons, List.map_nil, List.sum_cons, List.sum_nil]
    norm_num

/-- Witness for claim C5: the pure-forest single-image batch has positive
probability mass, and the theorem's formula applies to it. -/
theorem c5_witness :
    0 < total_confidence [forest_probabilities] ∧
    calculate_co2_potential 10 100 [forest_probabilities] =
      max ((10 : ℚ) * ((100 : ℚ) / 100) *
        (total_co2_potential [forest_probabilities] /
          total_confidence [forest_probabilities])) 0 := by
  have h : 0 < total_confidence [forest_probabilities] := by
    simp only [total_confidence, vegetation_classes, forest_probabilities,
      List.map_cons, List.map_nil, List.sum_cons, List.sum_nil]
    norm_num
  exact ⟨h, (c5_co2_potential 10 100 [forest_probabilities] h).1⟩

/-- Claim C3: the monthly decomposition produces min(timeframe_days div 30, 12)
records (never more than 12); record k carries the seasonal factor at index
k mod 12 of the fixed table; each record's cumulative total is the sum of the
monthly tonnes up to and including it; and for any 12-month horizon the
monthly tonnes sum to annual·11.3/12 = annual·113/120, not to the annual
total itself. -/
theorem c3_monthly_breakdown (annual_co2 : ℚ) (timeframe_days : ℕ) :
    (calculate_monthly_breakdown annual_co2 timeframe_days).length =
      min (timeframe_days / 30) 12 ∧
    (calculate_monthly_breakdown annual_co2 timeframe_days).length ≤ 12 ∧
    (∀ k r, (calculate_monthly_breakdown annual_co2 timeframe_days)[k]? = some r →
      r.seasonal_factor = seasonal_factors.getD (k % 12) 0 ∧
      r.cumulative_co2 =
        (((calculate_monthly_breakdown annual_co2 timeframe_days).take (k + 1)).map
          MonthRecord.co2_capture_tonnes).sum) ∧
    (12 ≤ timeframe_days / 30 →
      ((calculate_monthly_breakdown annual_co2 timeframe_days).map
        MonthRecord.co2_capture_tonnes).sum = annual_co2 * (113/120)) := by
  refine ⟨breakdown_months_length _ _, ?_, ?_, ?_⟩
  · rw [calculate_monthly_breakdown, breakdown_months_length]
    exact min_le_right _ _
  · intro k r hr
    rw [calculate_monthly_breakdown] at hr
    have hk : k < min (timeframe_days / 30) 12 := by
      by_contra hk
      rw [List.getElem?_len_le (by rw [breakdown_months_length]; omega)] at hr
      exact Option.noConfusion hr
    rw [breakdown_months_getElem annual_co2 hk] at hr
    injection hr with hr
    subst hr
    refine ⟨rfl, ?_⟩
    rw [calculate_monthly_breakdown,
      breakdown_months_take annual_co2 (by omega : k + 1 ≤ min (timeframe_days / 30) 12),
      breakdown_months_sum]
  · intro h12
    rw [calculate_monthly_breakdown, Nat.min_eq_right h12, breakdown_months_sum]
    have hsum : factor_prefix_sum 12 = 113/10 := by
      norm_num [factor_prefix_sum, month_factor, seasonal_factors,
        List.range_succ]
    rw [hsum]
    ring

/-- Witness for claim C3 at annual estimate 12 over a 365-day horizon: the
horizon is a full 12 months, the monthly tonnes sum to 12·113/120, and the
first record uses the seasonal factor at index 0. -/
theorem c3_witness :
    12 ≤ 365 / 30 ∧
    ((calculate_monthly_breakdown 12 365).map MonthRecord.co2_capture_tonnes).sum =
      12 * (113/120) ∧
    (MonthRecord.mk 1 (12 / 12 * month_factor 0) (month_factor 0)
      (12 / 12 * factor_prefix_sum 1)).seasonal_factor =
      seasonal_factors.getD (0 % 12) 0 := by
  refine ⟨by decide, (c3_monthly_breakdown 12 365).2.2.2 (by decide), ?_⟩
  exact ((c3_monthly_breakdown 12 365).2.2.1 0 _
    (breakdown_months_getElem 12 (by decide))).1

/-- Claim C7 is refuted at a concrete input: the coverage sequence 40, 45, 50,
55 over the equal 30-day spacing that the repository's own time-series
fetcher produces has fitted slope 1/6 per day, so the trend is classified
"stable", not "increasing". -/
theorem c7_counterexample :
    (calculate_vegetation_trend thirty_day_series).trend = "stable" ∧
    (calculate_vegetation_trend thirty_day_series).trend ≠ "increasing" := by
  have h : (calculate_vegetation_trend thirty_day_series).trend = "stable" := by
    show classify_trend_slope _ = "stable"
    norm_num [thirty_day_series, polyfit_slope, classify_trend_slope, List.zipWith]
  exact ⟨h, by rw [h]; decide⟩

/-- Claim C7 (amended): fewer than 2 points yield the explicit
insufficient-data record with change rate 0 instead of an error; with at
least 2 points the slope of the degree-1 least-squares fit of coverage
against elapsed days since the first sample is classified as "increasing"
exactly when it exceeds 1, "decreasing" exactly when it is below -1, and
"stable" otherwise, and the record reports the initial coverage, the final
coverage and the total change; the sequence 40, 45, 50, 55 is classified
"increasing" at 1-day spacing (slope 5) but "stable" at the repository's
30-day spacing (slope 1/6), and 50, 50, 50 is classified "stable". -/
theorem c7_trend_classification :
    calculate_vegetation_trend [] = ⟨"insufficient_data", 0, none, none, none⟩ ∧
    (∀ p : TemporalPoint,
      calculate_vegetation_trend [p] = ⟨"insufficient_data", 0, none, none, none⟩) ∧
    (∀ p0 p1 rest,
      ((calculate_vegetation_trend (p0 :: p1 :: rest)).trend = "increasing" ↔
        1 < polyfit_slope
          ((p0 :: p1 :: rest).map (fun r => r.date_days - p0.date_days))
          ((p0 :: p1 :: rest).map (fun r => r.vegetation_coverage_percent))) ∧
      ((calculate_vegetation_trend (p0 :: p1 :: rest)).trend = "decreasing" ↔
        polyfit_slope
          ((p0 :: p1 :: rest).map (fun r => r.date_days - p0.date_days))
          ((p0 :: p1 :: rest).map (fun r => r.vegetation_coverage_percent)) < -1) ∧
      ((calculate_vegetation_trend (p0 :: p1 :: rest)).trend = "stable" ↔
        (-1 ≤ polyfit_slope
          ((p0 :: p1 :: rest).map (fun r => r.date_days - p0.date_days))
          ((p0 :: p1 :: rest).map (fun r => r.vegetation_coverage_percent)) ∧
         polyfit_slope
          ((p0 :: p1 :: rest).map (fun r => r.date_days - p0.date_days))
          ((p0 :: p1 :: rest).map (fun r => r.vegetation_coverage_percent)) ≤ 1)) ∧
      (calculate_vegetation_trend (p0 :: p1 :: rest)).change_rate =
        polyfit_slope
          ((p0 :: p1 :: rest).map (fun r => r.date_days - p0.date_days))
          ((p0 :: p1 :: rest).map (fun r => r.vegetation_coverage_percent)) ∧
      (calculate_vegetation_trend (p0 :: p1 :: rest)).initial_coverage =
        some p0.vegetation_coverage_percent ∧
      (calculate_vegetation_trend (p0 :: p1 :: rest)).final_coverage =
        some (((p0 :: p1 :: rest).map
          (fun r => r.vegetation_coverage_percent)).getLastD 0) ∧
      (calculate_vegetation_trend (p0 :: p1 :: rest)).total_change =
        some (((p0 :: p1 :: rest).map
          (fun r => r.vegetation_coverage_percent)).getLastD 0 -
          p0.vegetation_coverage_percent)) ∧
    (calculate_vegetation_trend one_day_series).trend = "increasing" ∧
    (calculate_vegetation_trend constant_series).trend = "stable" := by
  refine ⟨rfl, fun p => rfl, ?_, ?_, ?_⟩
  · intro p0 p1 rest
    show (classify_trend_slope _ = "increasing" ↔ _) ∧
      (classify_trend_slope _ = "decreasing" ↔ _) ∧
      (classify_trend_slope _ = "stable" ↔ _) ∧ _ ∧ _ ∧ _ ∧ _
    unfold classify_trend_slope
    split_ifs with h1 h2
    · exact ⟨iff_of_true rfl h1,
        iff_of_false (by decide) (by intro h; linarith),
        iff_of_false (by decide) (by intro h; linarith [h.2]),
        rfl, rfl, rfl, rfl⟩
    · exact ⟨iff_of_false (by decide) (by intro h; linarith),
        iff_of_true rfl h2,
        iff_of_false (by decide) (by intro h; linarith [h.1]),
        rfl, rfl, rfl, rfl⟩
    · exact ⟨iff_of_false (by decide) h1,
        iff_of_false (by decide) h2,
        iff_of_true rfl ⟨by linarith, by linarith⟩,
        rfl, rfl, rfl, rfl⟩
  · show classify_trend_slope _ = "increasing"
    norm_num [one_day_series, polyfit_slope, classify_trend_slope, List.zipWith]
  · show classify_trend_slope _ = "stable"
    norm_num [constant_series, polyfit_slope, classify_trend_slope, List.zipWith]

/-- Claim C8: for every batch in which exactly one image's classification
fails, the batch analysis still returns one entry per image in order, the
failing image contributing the error-tagged record with vegetation_detected
false and confidence 0, and every other image a successful classification
result. -/
theorem c8_batch_isolates_failure
    (classify : Image → Except String (VegClass → ℚ)) (images : List Image)
    (k : ℕ) (msg : String) (hk : k < images.length)
    (hfail : classify images[k] = Except.error msg)
    (hok : ∀ j (hj : j < images.length), j ≠ k →
      ∃ probs, classify images[j] = Except.ok probs) :
    ∃ results, batch_analyze true classify images = Except.ok results ∧
      results.length = images.length ∧
      results[k]? = some (BatchEntry.failure msg false 0) ∧
      (∀ j, j < images.length → j ≠ k →
        ∃ r, results[j]? = some (BatchEntry.success r)) := by
  refine ⟨_, rfl, by simp, ?_, ?_⟩
  · rw [List.getElem?_map, List.getElem?_eq_getElem hk, Option.map_some']
    simp [analyze_single_image, hfail]
  · intro j hj hne
    obtain ⟨probs, hp⟩ := hok j hj hne
    refine ⟨⟨decide (probs (argmax_class probs) > 7/10), argmax_class probs,
      probs (argmax_class probs), calculate_vegetation_coverage images[j], probs⟩, ?_⟩
    rw [List.getElem?_map, List.getElem?_eq_getElem hj, Option.map_some']
    simp [analyze_single_image, hp]

/-- Witness for claim C8: a two-image batch whose second image is empty and
rejected by the classifier while the first is classified as forest. -/
theorem c8_witness :
    ∃ results, batch_analyze true demo_classify demo_images = Except.ok results ∧
      results.length = demo_images.length ∧
      results[1]? = some (BatchEntry.failure "Empty image tensor" false 0) ∧
      (∀ j, j < demo_images.length → j ≠ 1 →
        ∃ r, results[j]? = some (BatchEntry.success r)) := by
  refine c8_batch_isolates_failure demo_classify demo_images 1 "Empty image tensor"
    (by decide) rfl ?_
  intro j hj hne
  have hj2 : j < 2 := by simpa [demo_images] using hj
  have hj0 : j = 0 := by omega
  subst hj0
  exact ⟨forest_probabilities, rfl⟩

end CarbonFlow
